import Mathlib

/-!
# PremiumRoute — verification of the spec against the source

Shallow embedding of the logistics back-office application `PremiumRoute`
(Django). Monetary values and numeric request fields are modelled as exact
rationals (`ℚ`); the relational store is modelled as explicit lists of
records; every request handler becomes a pure Lean function from the
relevant state and request data to the new state and the response.
-/

namespace PremiumRoute

/-! ## Rate calculator (api/views.py, `CalculateRateView.post`) -/

/-- The response body assembled by `CalculateRateView.post`
(src/PremiumRoute/api/views.py). -/
structure RateResponse where
  base_rate : ℚ
  weight_rate : ℚ
  distance_multiplier : ℚ
  service_multiplier : ℚ
  insurance : ℚ
  total : ℚ
  currency : String
  estimated_days : String
deriving Repr, DecidableEq

/-- The fixed `service_multipliers` dictionary from `CalculateRateView.post`:
standard=1.0, express=1.5, overnight=2.0, same_day=2.5. -/
def service_multipliers : List (String × ℚ) :=
  [("standard", 1), ("express", 3/2), ("overnight", 2), ("same_day", 5/2)]

/-- `CalculateRateView.post` (src/PremiumRoute/api/views.py, lines 355–412):
the rate calculation over already-parsed numeric fields. `length`, `width`
and `height` are extracted from the request exactly like the other fields
but are never used afterwards, which the embedding reproduces by taking
them as (unused) arguments. `dict.get(service_type, 1.0)` becomes
`(List.lookup …).getD 1`. -/
def CalculateRateView.post (weight length width height : ℚ)
    (from_country to_country service_type : String)
    (declared_value : ℚ) : RateResponse :=
  let base_rate : ℚ := 10
  let weight_rate : ℚ := weight * 2
  let distance_multiplier : ℚ := if from_country ≠ to_country then 3/2 else 1
  let service_multiplier : ℚ := (service_multipliers.lookup service_type).getD 1
  let total : ℚ := (base_rate + weight_rate) * distance_multiplier * service_multiplier
  let insurance : ℚ := if declared_value > 0 then declared_value * (1/100) else 0
  { base_rate := base_rate
    weight_rate := weight_rate
    distance_multiplier := distance_multiplier
    service_multiplier := service_multiplier
    insurance := insurance
    total := total + insurance
    currency := "USD"
    estimated_days :=
      if service_type = "standard" then "3-5 business days" else "1-2 business days" }

/-! ## Shipping data model (shipping/models.py, shipping/views.py) -/

/-- A `ShipmentHistory` row (shipping/models.py): the status recorded by a
transition plus optional location/description; `created_by` holds the
acting user (their email), `none` for system-created rows. -/
structure ShipmentHistory where
  status : String
  location : String
  description : String
  created_by : Option String
deriving Repr, DecidableEq

/-- The columns of `Shipment` (shipping/models.py) that the modelled
operations read or write; the remaining columns (addresses, package
details, dates, flags) are inert payload for every operation here. -/
structure Shipment where
  tracking_number : String
  status : String
  payment_status : String
  weight : ℚ
  shipping_method : String
  sender_country : String
  receiver_country : String
  shipping_cost : ℚ
  insurance_cost : ℚ
  tax : ℚ
  total_cost : ℚ
deriving Repr, DecidableEq

/-- `Shipment.generate_tracking_number` (shipping/models.py):
`"SH" + str(uuid.uuid4().int)[:10].upper()`; the random 128-bit uuid value
is passed in explicitly. -/
def Shipment.generate_tracking_number (uuid : ℕ) : String :=
  "SH" ++ ((toString uuid).take 10).toUpper

/-- `Shipment.save` (shipping/models.py lines 124–130): assign a tracking
number only when the field is empty (Python falsiness), then persist. -/
def Shipment.save (s : Shipment) (uuid : ℕ) : Shipment :=
  if s.tracking_number = "" then
    { s with tracking_number := Shipment.generate_tracking_number uuid }
  else s

/-- A persisted shipment together with its exclusively-owned history rows,
newest first (the views order history by `-created_at`). -/
structure ShipmentState where
  shipment : Shipment
  history : List ShipmentHistory
deriving Repr, DecidableEq

/-- Modelled from the spec: `calculate_shipping_cost` lives in
`shipping/utils.py`, which is not under src/ (only its caller
`shipping/views.py` is). §4.2 gives the policy `amount = (base_rate +
weight * per_kg_rate) * distance_multiplier * service_multiplier +
insurance`; this call site passes no declared value, so the insurance term
is 0. -/
def calculate_shipping_cost (weight : ℚ) (service_type origin destination : String) : ℚ :=
  (10 + weight * 2) * (if origin = destination then 1 else 3/2)
    * ((service_multipliers.lookup service_type).getD 1)

/-- The validated `ShipmentForm` fields that `create_shipment` uses. -/
structure ShipmentForm where
  weight : ℚ
  shipping_method : String
  sender_country : String
  receiver_country : String
  insurance_cost : ℚ
  tax : ℚ
deriving Repr, DecidableEq

/-- `create_shipment` (shipping/views.py lines 14–48): build the shipment
from the form (`status` defaults to `pending`), compute the shipping and
total costs, persist (assigning a tracking number), then append the
initial `pending` history row. -/
def create_shipment (form : ShipmentForm) (uuid : ℕ) : ShipmentState :=
  let shipping_cost := calculate_shipping_cost form.weight form.shipping_method
      form.sender_country form.receiver_country
  let s : Shipment :=
    { tracking_number := ""
      status := "pending"
      payment_status := "pending"
      weight := form.weight
      shipping_method := form.shipping_method
      sender_country := form.sender_country
      receiver_country := form.receiver_country
      shipping_cost := shipping_cost
      insurance_cost := form.insurance_cost
      tax := form.tax
      total_cost := shipping_cost + form.insurance_cost + form.tax }
  { shipment := s.save uuid
    history := [{ status := "pending", location := ""
                  description := "Shipment created successfully", created_by := none }] }

/-- The POST fields read by `update_shipment_status`; an absent field is
the empty string (the default of `request.POST.get`, falsy in Python). -/
structure StatusUpdateRequest where
  new_status : String
  location : String
  description : String
deriving Repr, DecidableEq

/-- Core of `update_shipment_status` (shipping/views.py lines 93–116) once
the shipment is loaded: when the requested status is non-empty and differs
from the current one, set the status and append one history row carrying
the new status; both writes form a single step of this transition system
(the atomicity boundary of §5). Otherwise the state is untouched. -/
def update_shipment_status (st : ShipmentState) (req : StatusUpdateRequest)
    (actor : String) : ShipmentState :=
  if req.new_status ≠ "" ∧ req.new_status ≠ st.shipment.status then
    { shipment := { st.shipment with status := req.new_status }
      history := { status := req.new_status, location := req.location
                   description := req.description, created_by := some actor } :: st.history }
  else st

/-- Whether `update_shipment_status` accepts (applies) the request. -/
def statusChangeApplied (st : ShipmentState) (req : StatusUpdateRequest) : Bool :=
  decide (req.new_status ≠ "" ∧ req.new_status ≠ st.shipment.status)

/-- Apply a sequence of status-update requests, each with its actor. -/
def applyStatusChanges (st : ShipmentState) :
    List (StatusUpdateRequest × String) → ShipmentState
  | [] => st
  | (r, a) :: rest => applyStatusChanges (update_shipment_status st r a) rest

/-- How many requests of the sequence are actually applied. -/
def countApplied (st : ShipmentState) : List (StatusUpdateRequest × String) → ℕ
  | [] => 0
  | (r, a) :: rest =>
    (if statusChangeApplied st r then 1 else 0)
      + countApplied (update_shipment_status st r a) rest

/-! ## Consignment data model (consignment/models.py, api/views.py) -/

/-- A `ConsignmentHistory` row (consignment/models.py). -/
structure ConsignmentHistory where
  status : String
  location : String
  description : String
  created_by : Option String
deriving Repr, DecidableEq

/-- The columns of `Consignment` (consignment/models.py) that the modelled
operations read or write; the shipper/consignee/cargo/container columns
are inert payload here. `approved_at` is an abstract timestamp tick. -/
structure Consignment where
  consignment_number : String
  status : String
  freight_charges : ℚ
  handling_charges : ℚ
  insurance_charges : ℚ
  customs_charges : ℚ
  other_charges : ℚ
  total_charges : ℚ
  approved_by : Option String
  approved_at : Option ℕ
deriving Repr, DecidableEq

/-- `Consignment.generate_consignment_number` (consignment/models.py):
`"CN" + str(uuid.uuid4().int)[:12].upper()`. -/
def Consignment.generate_consignment_number (uuid : ℕ) : String :=
  "CN" ++ ((toString uuid).take 12).toUpper

/-- `Consignment.save` (consignment/models.py lines 94–107): assign the
consignment number only when empty, then recompute `total_charges` as the
sum of the five charge fields on every save. -/
def Consignment.save (c : Consignment) (uuid : ℕ) : Consignment :=
  let c' := if c.consignment_number = "" then
      { c with consignment_number := Consignment.generate_consignment_number uuid }
    else c
  { c' with total_charges := c'.freight_charges + c'.handling_charges
      + c'.insurance_charges + c'.customs_charges + c'.other_charges }

/-- A persisted consignment with its history rows, newest first. -/
structure ConsignmentState where
  consignment : Consignment
  history : List ConsignmentHistory
deriving Repr, DecidableEq

/-- The fields of `accounts.User` the modelled handlers read. -/
structure User where
  email : String
  user_type : String
deriving Repr, DecidableEq

/-- Errors a modelled API handler can report. -/
inductive ApiError
  | forbidden
  | notFound
deriving Repr, DecidableEq

/-- `ConsignmentViewSet.approve` (api/views.py lines 179–206): respond 403
unless the actor's `user_type` is admin or staff; otherwise set the status
to `approved` unconditionally (whatever it was), record approver and time,
save (which recomputes totals), and append one history row. The 403 branch
performs no writes, so the consignment is unchanged there. -/
def ConsignmentViewSet.approve (actor : User) (now uuid : ℕ)
    (st : ConsignmentState) : Except ApiError ConsignmentState :=
  if ¬ (actor.user_type = "admin" ∨ actor.user_type = "staff") then
    .error .forbidden
  else
    let c := { st.consignment with
                 status := "approved"
                 approved_by := some actor.email
                 approved_at := some now }
    .ok { consignment := c.save uuid
          history := { status := "approved", location := ""
                       description := "Consignment approved via API"
                       created_by := some actor.email } :: st.history }

/-! ## Payments (payments/models.py) -/

/-- The columns of `Payment` (payments/models.py) the modelled save
touches or that identify the record. -/
structure Payment where
  payment_id : String
  status : String
  payment_method : String
  amount : ℚ
  currency : String
deriving Repr, DecidableEq

/-- `Payment.save` (payments/models.py lines 53–56): assign
`"PAY" + str(uuid.uuid4().int)[:12].upper()` only when `payment_id` is
empty. -/
def Payment.save (p : Payment) (uuid : ℕ) : Payment :=
  if p.payment_id = "" then
    { p with payment_id := "PAY" ++ ((toString uuid).take 12).toUpper }
  else p

/-! ## Tracking webhook (tracking/views.py) -/

/-- Replace the first element satisfying `p` by its image under `f`: the
effect of `queryset.filter(…).first()` followed by field writes and
`save()`. -/
def updateFirst (p : α → Bool) (f : α → α) : List α → List α
  | [] => []
  | x :: xs => if p x then f x :: xs else x :: updateFirst p f xs

/-- The relational store as the webhook sees it. -/
structure TrackingStore where
  shipments : List ShipmentState
  consignments : List ConsignmentState
deriving Repr, DecidableEq

/-- The JSON body read by `webhook_update`. -/
structure WebhookRequest where
  tracking_number : String
  status : String
  location : String
  description : String
deriving Repr, DecidableEq

/-- Error vocabulary of the tracker interface (spec §6–§7): `notFound` for
an unknown identifier, `invalidTransition` reserved for rejected
transitions — the source never constructs the latter. -/
inductive TrackerError
  | notFound
  | invalidTransition
deriving Repr, DecidableEq

/-- The per-shipment effect of `webhook_update` (tracking/views.py): set
the status unconditionally and append one history row (no `created_by`). -/
def webhook_apply_shipment (st : ShipmentState) (req : WebhookRequest) : ShipmentState :=
  { shipment := { st.shipment with status := req.status }
    history := { status := req.status, location := req.location
                 description := req.description, created_by := none } :: st.history }

/-- The per-consignment effect of `webhook_update`. -/
def webhook_apply_consignment (st : ConsignmentState) (req : WebhookRequest) :
    ConsignmentState :=
  { consignment := { st.consignment with status := req.status }
    history := { status := req.status, location := req.location
                 description := req.description, created_by := none } :: st.history }

/-- `webhook_update` (tracking/views.py lines 103–146): look the tracking
number up among shipments (`filter(...).first()`), apply the update to the
first match; otherwise try consignments; otherwise answer 404 not-found. -/
def webhook_update (db : TrackingStore) (req : WebhookRequest) :
    Except TrackerError TrackingStore :=
  match db.shipments.find? (fun st => st.shipment.tracking_number == req.tracking_number) with
  | some _ =>
    .ok { db with shipments :=
            (updateFirst (fun st => st.shipment.tracking_number == req.tracking_number)
              (fun st => webhook_apply_shipment st req) db.shipments) }
  | none =>
    match db.consignments.find?
        (fun st => st.consignment.consignment_number == req.tracking_number) with
    | some _ =>
      .ok { db with consignments :=
              (updateFirst (fun st => st.consignment.consignment_number == req.tracking_number)
                (fun st => webhook_apply_consignment st req) db.consignments) }
    | none => .error .notFound

/-- `update_shipment_status` (shipping/views.py lines 93–116) as an entry
point: `get_object_or_404` answers not-found when no shipment carries the
tracking number, otherwise the loaded shipment is updated in place. -/
def update_shipment_status_view (shipments : List ShipmentState)
    (tracking_number : String) (req : StatusUpdateRequest) (actor : String) :
    Except TrackerError (List ShipmentState) :=
  match shipments.find? (fun st => st.shipment.tracking_number == tracking_number) with
  | some _ =>
    .ok (updateFirst (fun st => st.shipment.tracking_number == tracking_number)
          (fun st => update_shipment_status st req actor) shipments)
  | none => .error .notFound

/-! ## Aggregation guards (api/views.py, reports/views.py) -/

/-- What can go wrong in an aggregation. -/
inductive AggError
  | divisionByZero
deriving Repr, DecidableEq

/-- Division as Python performs it: an exception on a zero denominator. -/
def pyDiv (a b : ℚ) : Except AggError ℚ :=
  if b = 0 then .error .divisionByZero else .ok (a / b)

/-- The average of `ShipmentViewSet.stats` (api/views.py line 153):
`total_spent / total if total > 0 else 0` over the record count. -/
def ShipmentViewSet.stats_average_cost (total_spent : ℚ) (total : ℕ) :
    Except AggError ℚ :=
  if 0 < total then pyDiv total_spent total else .ok 0

/-- The average of `ShipmentReportView.get` (api/views.py line 670):
`total_revenue / total if total > 0 else 0`. -/
def ShipmentReportView.average_value (total_revenue : ℚ) (total : ℕ) :
    Except AggError ℚ :=
  if 0 < total then pyDiv total_revenue total else .ok 0

/-- The average of `FinancialReportView.get` (api/views.py line 709):
`total_revenue / payments.count() if payments.count() > 0 else 0`. -/
def FinancialReportView.average_payment (total_revenue : ℚ) (count : ℕ) :
    Except AggError ℚ :=
  if 0 < count then pyDiv total_revenue count else .ok 0

/-- Django `aggregate(Avg(f))['…'] or 0` (reports/views.py lines 103 and
167): SQL `AVG` over an empty set is NULL (`None` in Python), which `or 0`
turns into 0; over a non-empty set it is the mean. -/
def aggregate_avg_or_zero (xs : List ℚ) : ℚ :=
  match xs with
  | [] => 0
  | y :: ys => (y :: ys).sum / (y :: ys).length

/-- The service multiplier returned by the table lookup is one of the four
table values or the 1.0 default, hence at least 1. -/
theorem one_le_service_multiplier (service_type : String) :
    (1 : ℚ) ≤ (service_multipliers.lookup service_type).getD 1 := by
  by_cases h1 : service_type = "standard"
  · subst h1
    have e : (service_multipliers.lookup "standard").getD 1 = 1 := rfl
    rw [e]
  by_cases h2 : service_type = "express"
  · subst h2
    have e : (service_multipliers.lookup "express").getD 1 = 3/2 := rfl
    rw [e]; norm_num
  by_cases h3 : service_type = "overnight"
  · subst h3
    have e : (service_multipliers.lookup "overnight").getD 1 = 2 := rfl
    rw [e]; norm_num
  by_cases h4 : service_type = "same_day"
  · subst h4
    have e : (service_multipliers.lookup "same_day").getD 1 = 5/2 := rfl
    rw [e]; norm_num
  have b1 : (service_type == "standard") = false := beq_eq_false_iff_ne.mpr h1
  have b2 : (service_type == "express") = false := beq_eq_false_iff_ne.mpr h2
  have b3 : (service_type == "overnight") = false := beq_eq_false_iff_ne.mpr h3
  have b4 : (service_type == "same_day") = false := beq_eq_false_iff_ne.mpr h4
  simp [service_multipliers, List.lookup, b1, b2, b3, b4]

/-- Unfolding lemma: the `total` field returned by `CalculateRateView.post`. -/
theorem CalculateRateView.post_total (weight length width height : ℚ)
    (from_country to_country service_type : String) (declared_value : ℚ) :
    (CalculateRateView.post weight length width height from_country to_country
        service_type declared_value).total
      = (10 + weight * 2) * (if from_country ≠ to_country then 3/2 else 1)
          * ((service_multipliers.lookup service_type).getD 1)
          + (if declared_value > 0 then declared_value * (1/100) else 0) := rfl

/-- C1: for every input, the returned amount is
`(base_rate + weight * per_kg_rate) * distance_multiplier * service_multiplier
+ insurance` with base_rate 10, per_kg_rate 2, distance_multiplier 1 when
origin equals destination and 1.5 otherwise, the service table mapping
standard/express/overnight/same_day to 1/1.5/2/2.5 with unknown service
types mapped to 1, and insurance of 1% of the declared value when it is
positive (added after the multipliers). -/
theorem calculate_rate_formula (weight length width height : ℚ)
    (from_country to_country service_type : String) (declared_value : ℚ) :
    ((CalculateRateView.post weight length width height from_country to_country
        service_type declared_value).total
      = (10 + weight * 2) * (if from_country = to_country then 1 else 3/2)
          * ((service_multipliers.lookup service_type).getD 1)
          + (if declared_value > 0 then declared_value * (1/100) else 0))
    ∧ (service_multipliers.lookup "standard").getD 1 = 1
    ∧ (service_multipliers.lookup "express").getD 1 = 3/2
    ∧ (service_multipliers.lookup "overnight").getD 1 = 2
    ∧ (service_multipliers.lookup "same_day").getD 1 = 5/2
    ∧ (service_type ∉ ["standard", "express", "overnight", "same_day"] →
        (service_multipliers.lookup service_type).getD 1 = 1) := by
  refine ⟨?_, rfl, rfl, rfl, rfl, ?_⟩
  · rw [CalculateRateView.post_total]
    by_cases h : from_country = to_country <;> simp [h]
  · intro hmem
    simp only [List.mem_cons, List.not_mem_nil, or_false, not_or] at hmem
    obtain ⟨h1, h2, h3, h4⟩ := hmem
    have b1 : (service_type == "standard") = false := beq_eq_false_iff_ne.mpr h1
    have b2 : (service_type == "express") = false := beq_eq_false_iff_ne.mpr h2
    have b3 : (service_type == "overnight") = false := beq_eq_false_iff_ne.mpr h3
    have b4 : (service_type == "same_day") = false := beq_eq_false_iff_ne.mpr h4
    simp [service_multipliers, List.lookup, b1, b2, b3, b4]

/-- Witness for C1's unknown-service-type hypothesis at the concrete
service type `"premium"`. -/
theorem calculate_rate_formula_witness :
    ("premium" : String) ∉ ["standard", "express", "overnight", "same_day"]
    ∧ (service_multipliers.lookup "premium").getD 1 = 1 :=
  ⟨by decide,
   (calculate_rate_formula 5 0 0 0 "US" "CA" "premium" 1000).2.2.2.2.2 (by decide)⟩

/-- C4: the two worked examples of the spec: 5 kg standard US→US with no
declared value totals 20.0; 5 kg express US→CA with declared value 1000
totals 55.0. -/
theorem calculate_rate_worked_examples :
    (CalculateRateView.post 5 0 0 0 "US" "US" "standard" 0).total = 20
    ∧ (CalculateRateView.post 5 0 0 0 "US" "CA" "express" 1000).total = 55 := by
  rw [CalculateRateView.post_total, CalculateRateView.post_total]
  have hne : ("US":String) ≠ "CA" := by decide
  have hst : (service_multipliers.lookup "standard").getD 1 = 1 := by
    simp [service_multipliers, List.lookup]
  have hex : (service_multipliers.lookup "express").getD 1 = 3/2 := by
    simp [service_multipliers, List.lookup]
  rw [hst, hex, if_pos hne]
  norm_num

/-- C5: the rate calculation is deterministic (a pure function of its
inputs: two calls with identical inputs return identical responses) and,
all other inputs fixed, `total` is monotone non-decreasing in the weight. -/
theorem calculate_rate_deterministic_and_monotone
    (w1 w2 length width height : ℚ) (from_country to_country service_type : String)
    (declared_value : ℚ) (hw : 0 ≤ w1) (hww : w1 ≤ w2) :
    CalculateRateView.post w1 length width height from_country to_country
        service_type declared_value
      = CalculateRateView.post w1 length width height from_country to_country
        service_type declared_value
    ∧ (CalculateRateView.post w1 length width height from_country to_country
        service_type declared_value).total
      ≤ (CalculateRateView.post w2 length width height from_country to_country
        service_type declared_value).total := by
  refine ⟨rfl, ?_⟩
  rw [CalculateRateView.post_total, CalculateRateView.post_total]
  have hsm : (0:ℚ) ≤ (service_multipliers.lookup service_type).getD 1 :=
    le_trans zero_le_one (one_le_service_multiplier service_type)
  have hdm : (0:ℚ) ≤ (if from_country ≠ to_country then 3/2 else 1) := by
    split <;> norm_num
  have h1 : (10 + w1 * 2) ≤ (10 + w2 * 2) := by linarith
  have h2 := mul_le_mul_of_nonneg_right (mul_le_mul_of_nonneg_right h1 hdm) hsm
  linarith

/-- Witness for C5 at weights 1 ≤ 2, standard US→US. -/
theorem calculate_rate_deterministic_and_monotone_witness :
    (0:ℚ) ≤ 1 ∧ (1:ℚ) ≤ 2
    ∧ (CalculateRateView.post 1 0 0 0 "US" "US" "standard" 0).total
      ≤ (CalculateRateView.post 2 0 0 0 "US" "US" "standard" 0).total :=
  ⟨by norm_num, by norm_num,
   (calculate_rate_deterministic_and_monotone 1 2 0 0 0 "US" "US" "standard" 0
      (by norm_num) (by norm_num)).2⟩

/-- C10: the rate calculation ignores the package dimensions: two requests
that differ only in length, width and height produce identical responses,
every breakdown field included. -/
theorem calculate_rate_ignores_dimensions
    (weight l1 wi1 ht1 l2 wi2 ht2 : ℚ)
    (from_country to_country service_type : String) (declared_value : ℚ) :
    CalculateRateView.post weight l1 wi1 ht1 from_country to_country
        service_type declared_value
      = CalculateRateView.post weight l2 wi2 ht2 from_country to_country
        service_type declared_value := rfl

/-- One `update_shipment_status` step grows the history by exactly the
number of rows the request is entitled to: one when applied, none
otherwise. -/
theorem update_shipment_status_history_length (st : ShipmentState)
    (req : StatusUpdateRequest) (actor : String) :
    (update_shipment_status st req actor).history.length
      = st.history.length + (if statusChangeApplied st req then 1 else 0) := by
  by_cases h : req.new_status ≠ "" ∧ req.new_status ≠ st.shipment.status
  · rw [update_shipment_status, if_pos h]
    simp [statusChangeApplied, h]
  · rw [update_shipment_status, if_neg h]
    simp [statusChangeApplied, h]

/-- Over any request sequence the history grows by exactly the number of
applied changes. -/
theorem applyStatusChanges_history_length
    (reqs : List (StatusUpdateRequest × String)) (st : ShipmentState) :
    (applyStatusChanges st reqs).history.length
      = st.history.length + countApplied st reqs := by
  induction reqs generalizing st with
  | nil => rfl
  | cons p rest ih =>
    obtain ⟨r, a⟩ := p
    simp only [applyStatusChanges, countApplied]
    rw [ih, update_shipment_status_history_length, Nat.add_assoc]

/-- `Consignment.save` only writes `consignment_number` and
`total_charges`: every other modelled column is preserved. -/
theorem Consignment.save_preserves (c : Consignment) (uuid : ℕ) :
    (c.save uuid).freight_charges = c.freight_charges
    ∧ (c.save uuid).handling_charges = c.handling_charges
    ∧ (c.save uuid).insurance_charges = c.insurance_charges
    ∧ (c.save uuid).customs_charges = c.customs_charges
    ∧ (c.save uuid).other_charges = c.other_charges
    ∧ (c.save uuid).status = c.status
    ∧ (c.save uuid).approved_by = c.approved_by
    ∧ (c.save uuid).approved_at = c.approved_at := by
  simp only [Consignment.save]
  split <;> exact ⟨rfl, rfl, rfl, rfl, rfl, rfl, rfl, rfl⟩

/-- C2: applying a status change to a shipment appends exactly one history
record and updates the parent's status in the same (atomic) step of the
transition system; a rejected request (empty or unchanged status) leaves
the state untouched; and after creation (which records the initial
`pending` status as its one history row) the history count always equals
one plus the number of further status changes applied, i.e. the number of
status changes applied counting the initial one. -/
theorem status_change_appends_exactly_one
    (form : ShipmentForm) (uuid : ℕ) (reqs : List (StatusUpdateRequest × String))
    (st : ShipmentState) (req : StatusUpdateRequest) (actor : String) :
    ((create_shipment form uuid).history.length = 1
      ∧ (create_shipment form uuid).shipment.status = "pending")
    ∧ (statusChangeApplied st req = true →
        (update_shipment_status st req actor).shipment.status = req.new_status
        ∧ (update_shipment_status st req actor).history.length = st.history.length + 1)
    ∧ (statusChangeApplied st req = false →
        update_shipment_status st req actor = st)
    ∧ (applyStatusChanges (create_shipment form uuid) reqs).history.length
        = 1 + countApplied (create_shipment form uuid) reqs := by
  refine ⟨⟨rfl, rfl⟩, ?_, ?_, ?_⟩
  · intro h
    rw [statusChangeApplied, decide_eq_true_eq] at h
    rw [update_shipment_status, if_pos h]
    exact ⟨rfl, rfl⟩
  · intro h
    rw [statusChangeApplied, decide_eq_false_iff_not] at h
    rw [update_shipment_status, if_neg h]
  · rw [applyStatusChanges_history_length]
    rfl

/-- Witness for C2 at a concrete freshly-created shipment: an accepted
`in_transit` change appends one row and sets the status; a request
repeating the current status is a no-op. -/
theorem status_change_appends_exactly_one_witness :
    (statusChangeApplied
        ⟨⟨"SH1", "pending", "pending", 1, "standard", "US", "US", 12, 0, 0, 12⟩, []⟩
        ⟨"in_transit", "NYC", "moved"⟩ = true)
    ∧ (update_shipment_status
        ⟨⟨"SH1", "pending", "pending", 1, "standard", "US", "US", 12, 0, 0, 12⟩, []⟩
        ⟨"in_transit", "NYC", "moved"⟩ "ops@x").shipment.status = "in_transit"
    ∧ (update_shipment_status
        ⟨⟨"SH1", "pending", "pending", 1, "standard", "US", "US", 12, 0, 0, 12⟩, []⟩
        ⟨"in_transit", "NYC", "moved"⟩ "ops@x").history.length = ([] : List ShipmentHistory).length + 1
    ∧ (statusChangeApplied
        ⟨⟨"SH1", "pending", "pending", 1, "standard", "US", "US", 12, 0, 0, 12⟩, []⟩
        ⟨"pending", "", ""⟩ = false)
    ∧ update_shipment_status
        ⟨⟨"SH1", "pending", "pending", 1, "standard", "US", "US", 12, 0, 0, 12⟩, []⟩
        ⟨"pending", "", ""⟩ "ops@x"
      = ⟨⟨"SH1", "pending", "pending", 1, "standard", "US", "US", 12, 0, 0, 12⟩, []⟩ :=
  ⟨by decide,
   ((status_change_appends_exactly_one ⟨1, "standard", "US", "US", 0, 0⟩ 0 []
      ⟨⟨"SH1", "pending", "pending", 1, "standard", "US", "US", 12, 0, 0, 12⟩, []⟩
      ⟨"in_transit", "NYC", "moved"⟩ "ops@x").2.1 (by decide)).1,
   ((status_change_appends_exactly_one ⟨1, "standard", "US", "US", 0, 0⟩ 0 []
      ⟨⟨"SH1", "pending", "pending", 1, "standard", "US", "US", 12, 0, 0, 12⟩, []⟩
      ⟨"in_transit", "NYC", "moved"⟩ "ops@x").2.1 (by decide)).2,
   by decide,
   (status_change_appends_exactly_one ⟨1, "standard", "US", "US", 0, 0⟩ 0 []
      ⟨⟨"SH1", "pending", "pending", 1, "standard", "US", "US", 12, 0, 0, 12⟩, []⟩
      ⟨"pending", "", ""⟩ "ops@x").2.2.1 (by decide)⟩

/-- C3: after every save of a consignment, `total_charges` equals the sum
of the five charge fields (read either before or after the save — the save
preserves them), whatever value `total_charges` held before. -/
theorem consignment_total_charges_invariant (c : Consignment) (uuid : ℕ) :
    (c.save uuid).total_charges
      = (c.save uuid).freight_charges + (c.save uuid).handling_charges
        + (c.save uuid).insurance_charges + (c.save uuid).customs_charges
        + (c.save uuid).other_charges
    ∧ (c.save uuid).total_charges
      = c.freight_charges + c.handling_charges + c.insurance_charges
        + c.customs_charges + c.other_charges := by
  constructor
  · simp only [Consignment.save]
  · simp only [Consignment.save]
    split <;> rfl

/-- A string starting with a non-empty literal is itself non-empty. -/
theorem append_ne_empty (x y : String) (hx : x.length ≠ 0) : x ++ y ≠ "" := by
  intro h
  have hl := congrArg String.length h
  rw [String.length_append] at hl
  have h0 : String.length "" = 0 := rfl
  rw [h0] at hl
  omega

/-- Projection of `Consignment.save` on the consignment number. -/
theorem Consignment.save_number (c : Consignment) (u : ℕ) :
    (c.save u).consignment_number
      = if c.consignment_number = "" then Consignment.generate_consignment_number u
        else c.consignment_number := by
  simp only [Consignment.save]
  split <;> rfl

/-- C9: the three identifiers are generated exactly once, as a fixed
prefix (`SH`/`CN`/`PAY`) on a truncation of the decimal form of the random
128-bit uuid value, only when the field is empty; saving an entity whose
identifier is already set leaves it unchanged, and in particular a second
save after the generating save never regenerates the identifier. -/
theorem identifiers_generated_once
    (s : Shipment) (c : Consignment) (p : Payment) (u1 u2 : ℕ) :
    (s.tracking_number = "" →
      (s.save u1).tracking_number = "SH" ++ ((toString u1).take 10).toUpper)
    ∧ (s.tracking_number ≠ "" → (s.save u1).tracking_number = s.tracking_number)
    ∧ ((s.save u1).save u2).tracking_number = (s.save u1).tracking_number
    ∧ (c.consignment_number = "" →
      (c.save u1).consignment_number = "CN" ++ ((toString u1).take 12).toUpper)
    ∧ (c.consignment_number ≠ "" → (c.save u1).consignment_number = c.consignment_number)
    ∧ ((c.save u1).save u2).consignment_number = (c.save u1).consignment_number
    ∧ (p.payment_id = "" →
      (p.save u1).payment_id = "PAY" ++ ((toString u1).take 12).toUpper)
    ∧ (p.payment_id ≠ "" → (p.save u1).payment_id = p.payment_id)
    ∧ ((p.save u1).save u2).payment_id = (p.save u1).payment_id := by
  have hSH : ∀ y, ("SH" : String) ++ y ≠ "" := fun y => append_ne_empty _ y (by decide)
  have hCN : ∀ y, ("CN" : String) ++ y ≠ "" := fun y => append_ne_empty _ y (by decide)
  have hPAY : ∀ y, ("PAY" : String) ++ y ≠ "" := fun y => append_ne_empty _ y (by decide)
  refine ⟨?_, ?_, ?_, ?_, ?_, ?_, ?_, ?_, ?_⟩
  · intro h
    rw [Shipment.save, if_pos h]
    rfl
  · intro h
    rw [Shipment.save, if_neg h]
  · have h1 : (s.save u1).tracking_number ≠ "" := by
      by_cases h : s.tracking_number = ""
      · rw [Shipment.save, if_pos h]
        exact hSH _
      · rw [Shipment.save, if_neg h]
        exact h
    rw [Shipment.save, if_neg h1]
  · intro h
    rw [Consignment.save_number, if_pos h]
    rfl
  · intro h
    rw [Consignment.save_number, if_neg h]
  · have h1 : (c.save u1).consignment_number ≠ "" := by
      by_cases h : c.consignment_number = ""
      · rw [Consignment.save_number, if_pos h]
        exact hCN _
      · rw [Consignment.save_number, if_neg h]
        exact h
    rw [Consignment.save_number, if_neg h1]
  · intro h
    rw [Payment.save, if_pos h]
  · intro h
    rw [Payment.save, if_neg h]
  · have h1 : (p.save u1).payment_id ≠ "" := by
      by_cases h : p.payment_id = ""
      · rw [Payment.save, if_pos h]
        exact hPAY _
      · rw [Payment.save, if_neg h]
        exact h
    rw [Payment.save, if_neg h1]

/-- Witness for C9: a blank shipment gets `SH`-prefixed code from uuid 99,
an already-numbered shipment, consignment and payment keep their
identifiers. -/
theorem identifiers_generated_once_witness :
    ((Shipment.save ⟨"", "pending", "pending", 1, "standard", "US", "US", 12, 0, 0, 12⟩
        99).tracking_number = "SH" ++ ((toString 99).take 10).toUpper)
    ∧ ((Shipment.save ⟨"SH123", "pending", "pending", 1, "standard", "US", "US", 12, 0, 0, 12⟩
        99).tracking_number = "SH123")
    ∧ ((Consignment.save ⟨"CN9", "draft", 1, 2, 3, 4, 5, 0, none, none⟩
        99).consignment_number = "CN9")
    ∧ ((Payment.save ⟨"PAY7", "pending", "cash", 10, "USD"⟩ 99).payment_id = "PAY7") :=
  ⟨(identifiers_generated_once
      ⟨"", "pending", "pending", 1, "standard", "US", "US", 12, 0, 0, 12⟩
      ⟨"CN9", "draft", 1, 2, 3, 4, 5, 0, none, none⟩
      ⟨"PAY7", "pending", "cash", 10, "USD"⟩ 99 99).1 rfl,
   (identifiers_generated_once
      ⟨"SH123", "pending", "pending", 1, "standard", "US", "US", 12, 0, 0, 12⟩
      ⟨"CN9", "draft", 1, 2, 3, 4, 5, 0, none, none⟩
      ⟨"PAY7", "pending", "cash", 10, "USD"⟩ 99 99).2.1 (by decide),
   (identifiers_generated_once
      ⟨"SH123", "pending", "pending", 1, "standard", "US", "US", 12, 0, 0, 12⟩
      ⟨"CN9", "draft", 1, 2, 3, 4, 5, 0, none, none⟩
      ⟨"PAY7", "pending", "cash", 10, "USD"⟩ 99 99).2.2.2.2.1 (by decide),
   (identifiers_generated_once
      ⟨"SH123", "pending", "pending", 1, "standard", "US", "US", 12, 0, 0, 12⟩
      ⟨"CN9", "draft", 1, 2, 3, 4, 5, 0, none, none⟩
      ⟨"PAY7", "pending", "cash", 10, "USD"⟩ 99 99).2.2.2.2.2.2.2.1 (by decide)⟩

/-- C7: `approve` answers 403 forbidden (writing nothing) unless the actor
is staff or admin; on success the status becomes `approved` whatever it
was before, the approver and approval time are recorded, and one history
row is appended. -/
theorem consignment_approve_requires_staff (actor : User) (now uuid : ℕ)
    (st : ConsignmentState) :
    (actor.user_type ≠ "admin" ∧ actor.user_type ≠ "staff" →
      ConsignmentViewSet.approve actor now uuid st = .error .forbidden)
    ∧ (actor.user_type = "admin" ∨ actor.user_type = "staff" →
        (ConsignmentViewSet.approve actor now uuid st).map
            (fun r => (r.consignment.status, r.consignment.approved_by,
                       r.consignment.approved_at, r.history.length))
          = .ok ("approved", some actor.email, some now, st.history.length + 1)) := by
  constructor
  · intro h
    rw [ConsignmentViewSet.approve, if_pos]
    intro hor
    rcases hor with h1 | h2
    · exact h.1 h1
    · exact h.2 h2
  · intro h
    rw [ConsignmentViewSet.approve, if_neg (not_not_intro h)]
    simp only [Except.map]
    simp only [Consignment.save]
    split <;> rfl

/-- Witness for C7: a customer is refused; an admin approves a draft
consignment. -/
theorem consignment_approve_requires_staff_witness :
    (ConsignmentViewSet.approve ⟨"c@x", "customer"⟩ 7 99
        ⟨⟨"CN9", "draft", 1, 2, 3, 4, 5, 0, none, none⟩, []⟩ = .error .forbidden)
    ∧ ((ConsignmentViewSet.approve ⟨"a@x", "admin"⟩ 7 99
        ⟨⟨"CN9", "draft", 1, 2, 3, 4, 5, 0, none, none⟩, []⟩).map
          (fun r => (r.consignment.status, r.consignment.approved_by,
                     r.consignment.approved_at, r.history.length))
        = .ok ("approved", some "a@x", some 7, ([] : List ConsignmentHistory).length + 1)) :=
  ⟨(consignment_approve_requires_staff ⟨"c@x", "customer"⟩ 7 99
      ⟨⟨"CN9", "draft", 1, 2, 3, 4, 5, 0, none, none⟩, []⟩).1 ⟨by decide, by decide⟩,
   (consignment_approve_requires_staff ⟨"a@x", "admin"⟩ 7 99
      ⟨⟨"CN9", "draft", 1, 2, 3, 4, 5, 0, none, none⟩, []⟩).2 (Or.inl rfl)⟩

/-- C6: the status-change entry points fail with not-found exactly when no
entity carries the tracking number, never report an invalid transition,
and — when the entity exists — accept every requested status whatever the
current one is: the webhook writes the requested status and appends
exactly one history row to the first match, for shipments and
consignments alike. -/
theorem apply_status_change_never_invalid_transition
    (db : TrackingStore) (req : WebhookRequest) (shipments : List ShipmentState)
    (tn : String) (r : StatusUpdateRequest) (actor : String) :
    (webhook_update db req = .error .notFound ↔
      (db.shipments.find? (fun st => st.shipment.tracking_number == req.tracking_number) = none
       ∧ db.consignments.find?
           (fun st => st.consignment.consignment_number == req.tracking_number) = none))
    ∧ (∀ e, webhook_update db req = .error e → e = .notFound)
    ∧ (db.shipments.find? (fun st => st.shipment.tracking_number == req.tracking_number) ≠ none →
        webhook_update db req = .ok { db with shipments :=
          (updateFirst (fun st => st.shipment.tracking_number == req.tracking_number)
            (fun st => webhook_apply_shipment st req) db.shipments) })
    ∧ (∀ st : ShipmentState,
        (webhook_apply_shipment st req).shipment.status = req.status
        ∧ (webhook_apply_shipment st req).history.length = st.history.length + 1)
    ∧ (∀ st : ConsignmentState,
        (webhook_apply_consignment st req).consignment.status = req.status
        ∧ (webhook_apply_consignment st req).history.length = st.history.length + 1)
    ∧ (∀ e, update_shipment_status_view shipments tn r actor = .error e → e = .notFound)
    ∧ (update_shipment_status_view shipments tn r actor = .error .notFound ↔
        shipments.find? (fun st => st.shipment.tracking_number == tn) = none) := by
  refine ⟨?_, ?_, ?_, fun st => ⟨rfl, rfl⟩, fun st => ⟨rfl, rfl⟩, ?_, ?_⟩
  · cases hS : db.shipments.find?
        (fun st => st.shipment.tracking_number == req.tracking_number) with
    | some s => simp [webhook_update, hS]
    | none =>
      cases hC : db.consignments.find?
          (fun st => st.consignment.consignment_number == req.tracking_number) with
      | some cs => simp [webhook_update, hS, hC]
      | none => simp [webhook_update, hS, hC]
  · intro e he
    cases hS : db.shipments.find?
        (fun st => st.shipment.tracking_number == req.tracking_number) with
    | some s =>
      rw [webhook_update] at he
      simp [hS] at he
    | none =>
      cases hC : db.consignments.find?
          (fun st => st.consignment.consignment_number == req.tracking_number) with
      | some cs =>
        rw [webhook_update] at he
        simp [hS, hC] at he
      | none =>
        rw [webhook_update] at he
        simp [hS, hC] at he
        exact he.symm
  · intro hne
    cases hS : db.shipments.find?
        (fun st => st.shipment.tracking_number == req.tracking_number) with
    | some s => simp [webhook_update, hS]
    | none => exact absurd hS hne
  · intro e he
    cases hF : shipments.find? (fun st => st.shipment.tracking_number == tn) with
    | some s =>
      rw [update_shipment_status_view] at he
      simp [hF] at he
    | none =>
      rw [update_shipment_status_view] at he
      simp [hF] at he
      exact he.symm
  · cases hF : shipments.find? (fun st => st.shipment.tracking_number == tn) with
    | some s => simp [update_shipment_status_view, hF]
    | none => simp [update_shipment_status_view, hF]

/-- Witness for C6: an empty store answers not-found; a store holding one
shipment accepts a `delivered` update for it. -/
theorem apply_status_change_never_invalid_transition_witness :
    (webhook_update ⟨[], []⟩ ⟨"SHX", "delivered", "", ""⟩ = .error .notFound)
    ∧ (TrackerError.notFound = TrackerError.notFound)
    ∧ (webhook_update
        ⟨[⟨⟨"SH1", "pending", "pending", 1, "standard", "US", "US", 12, 0, 0, 12⟩, []⟩], []⟩
        ⟨"SH1", "delivered", "", ""⟩
      = .ok ⟨updateFirst (fun st => st.shipment.tracking_number == "SH1")
          (fun st => webhook_apply_shipment st ⟨"SH1", "delivered", "", ""⟩)
          [⟨⟨"SH1", "pending", "pending", 1, "standard", "US", "US", 12, 0, 0, 12⟩, []⟩], []⟩)
    ∧ (update_shipment_status_view [] "SHX" ⟨"delivered", "", ""⟩ "ops@x"
        = .error .notFound) :=
  ⟨(apply_status_change_never_invalid_transition ⟨[], []⟩ ⟨"SHX", "delivered", "", ""⟩
      [] "SHX" ⟨"delivered", "", ""⟩ "ops@x").1.mpr ⟨rfl, rfl⟩,
   (apply_status_change_never_invalid_transition ⟨[], []⟩ ⟨"SHX", "delivered", "", ""⟩
      [] "SHX" ⟨"delivered", "", ""⟩ "ops@x").2.1 TrackerError.notFound
     ((apply_status_change_never_invalid_transition ⟨[], []⟩ ⟨"SHX", "delivered", "", ""⟩
        [] "SHX" ⟨"delivered", "", ""⟩ "ops@x").1.mpr ⟨rfl, rfl⟩),
   (apply_status_change_never_invalid_transition
      ⟨[⟨⟨"SH1", "pending", "pending", 1, "standard", "US", "US", 12, 0, 0, 12⟩, []⟩], []⟩
      ⟨"SH1", "delivered", "", ""⟩ [] "SHX" ⟨"delivered", "", ""⟩ "ops@x").2.2.1
     (by decide),
   (apply_status_change_never_invalid_transition ⟨[], []⟩ ⟨"SHX", "delivered", "", ""⟩
      [] "SHX" ⟨"delivered", "", ""⟩ "ops@x").2.2.2.2.2.2.mpr rfl⟩

/-- The guard pattern `x / n if n > 0 else 0` always succeeds. -/
theorem guarded_avg_ok (a : ℚ) (n : ℕ) :
    (if 0 < n then pyDiv a n else Except.ok 0)
      = .ok (if 0 < n then a / n else 0) := by
  split
  · next h =>
    rw [pyDiv, if_neg]
    exact Nat.cast_ne_zero.mpr (Nat.pos_iff_ne_zero.mp h)
  · rfl

/-- C8: every average over a possibly-empty record set is guarded: each of
the three `x / count if count > 0 else 0` sites returns a value (never a
division-by-zero error) and returns 0 when the count is 0, and the Django
`Avg(...) or 0` sites give 0 on an empty set. -/
theorem aggregation_empty_average_zero (a : ℚ) (n : ℕ) (xs : List ℚ) :
    (∃ v, ShipmentViewSet.stats_average_cost a n = .ok v)
    ∧ (n = 0 → ShipmentViewSet.stats_average_cost a n = .ok 0)
    ∧ (∃ v, ShipmentReportView.average_value a n = .ok v)
    ∧ (n = 0 → ShipmentReportView.average_value a n = .ok 0)
    ∧ (∃ v, FinancialReportView.average_payment a n = .ok v)
    ∧ (n = 0 → FinancialReportView.average_payment a n = .ok 0)
    ∧ (xs = [] → aggregate_avg_or_zero xs = 0) := by
  refine ⟨⟨_, guarded_avg_ok a n⟩, ?_, ⟨_, guarded_avg_ok a n⟩, ?_,
    ⟨_, guarded_avg_ok a n⟩, ?_, ?_⟩
  · intro h
    subst h
    rfl
  · intro h
    subst h
    rfl
  · intro h
    subst h
    rfl
  · intro h
    subst h
    rfl

/-- Witness for C8 at count 0, total 5, and the empty value list. -/
theorem aggregation_empty_average_zero_witness :
    ShipmentViewSet.stats_average_cost 5 0 = .ok 0
    ∧ ShipmentReportView.average_value 5 0 = .ok 0
    ∧ FinancialReportView.average_payment 5 0 = .ok 0
    ∧ aggregate_avg_or_zero [] = 0 :=
  ⟨(aggregation_empty_average_zero 5 0 []).2.1 rfl,
   (aggregation_empty_average_zero 5 0 []).2.2.2.1 rfl,
   (aggregation_empty_average_zero 5 0 []).2.2.2.2.2.1 rfl,
   (aggregation_empty_average_zero 5 0 []).2.2.2.2.2.2 rfl⟩

end PremiumRoute
